import Mathlib

/-!
Verification of the crypto-funds reporting tool (`src/main.py`) against its
natural-language specification.

The Python module is shallowly embedded:
* decoded JSON / Python values are the inductive `J`;
* Python exceptions are the inductive `PyErr`, and fallible code returns
  `Except PyErr _`;
* each tool (`search_funds`, `get_all_funds`, `get_fund_basic`,
  `get_fund_detail`, `get_fund_team`) is split into its query-parameter
  construction, its response-to-text transformation, and a wrapper that
  models the credential check and the outcome of the single HTTP fetch;
* the external `tabulate` library (the spec's Table Renderer, §4.3) is
  modelled by `tabulateGrid`; the claims depend on it only through totality,
  row order, and the text of section titles.
-/

/-- A decoded JSON value, doubling as the Python values the pipeline
manipulates: scalar, null, nested object, or sequence. -/
inductive J where
  | null
  | b (v : Bool)
  | i (v : Int)
  | s (v : String)
  | arr (xs : List J)
  | obj (kvs : List (String × J))

/-- A Python exception, by class and message. -/
inductive PyErr where
  | typeError (msg : String)
  | attributeError (msg : String)
  | valueError (msg : String)
  | indexError (msg : String)

/-- Python truthiness of a value (`if x:`): false/None/0/empty are falsy. -/
def J.truthy : J → Bool
  | .null => false
  | .b v => v
  | .i n => n != 0
  | .s v => !v.isEmpty
  | .arr xs => !xs.isEmpty
  | .obj kvs => !kvs.isEmpty

/-- `kvs.lookup k` with default: the value bound to `k` if the key is
present (even when that value is null), else the default `d`.  This is the
semantics of Python's `dict.get(k, d)` on a dict with entries `kvs`. -/
def dictGet (kvs : List (String × J)) (k : String) (d : J) : J :=
  (kvs.lookup k).getD d

/-- `v.get(k, d)` on an arbitrary Python value: defined on dicts, an
`AttributeError` on anything else (None, numbers, strings, lists have no
`get` method). -/
def pyGet (v : J) (k : String) (d : J) : Except PyErr J :=
  match v with
  | .obj kvs => .ok (dictGet kvs k d)
  | _ => .error (.attributeError "object has no attribute get")

/-- Python iteration (`for x in v`): lists yield their elements, strings
their characters (as one-character strings), dicts their keys; other values
are not iterable and raise `TypeError`. -/
def J.iter : J → Except PyErr (List J)
  | .arr xs => .ok xs
  | .s v => .ok (v.data.map (fun c => J.s (String.singleton c)))
  | .obj kvs => .ok (kvs.map (fun kv => J.s kv.1))
  | _ => .error (.typeError "object is not iterable")

/-- Python `v[0]`: first element of a list (IndexError when empty), first
character of a string, `TypeError` on non-subscriptable values; a dict
subscripted with the integer 0 has no such key. -/
def pyIndex0 : J → Except PyErr J
  | .arr [] => .error (.indexError "list index out of range")
  | .arr (x :: _) => .ok x
  | .s v =>
    match v.data with
    | [] => .error (.indexError "string index out of range")
    | c :: _ => .ok (.s (String.singleton c))
  | .obj _ => .error (.typeError "KeyError: 0")
  | _ => .error (.typeError "object is not subscriptable")

/-- Collect a list of Python values that must all be strings. -/
def strList : List J → Option (List String)
  | [] => some []
  | .s v :: xs => (strList xs).map (fun ss => v :: ss)
  | _ => none

/-- Python `sep.join(v)`: joins an iterable of strings; a list with a
non-string element, or a non-iterable value such as None, raises
`TypeError`.  Iterating a string joins its characters, iterating a dict
joins its keys. -/
def pyJoin (sep : String) : J → Except PyErr String
  | .s v => .ok (String.intercalate sep (v.data.map String.singleton))
  | .arr xs =>
    match strList xs with
    | some ss => .ok (String.intercalate sep ss)
    | none => .error (.typeError "sequence item: expected str instance")
  | .obj kvs =>
    match strList (kvs.map (fun kv => J.s kv.1)) with
    | some ss => .ok (String.intercalate sep ss)
    | none => .error (.typeError "sequence item: expected str instance")
  | _ => .error (.typeError "can only join an iterable")

/-- A Python list comprehension `[f x for x in xs]` over fallible `f`:
left-to-right, stopping at the first exception. -/
def mapE {α β : Type} (f : α → Except PyErr β) : List α → Except PyErr (List β)
  | [] => .ok []
  | x :: xs =>
    match f x with
    | .error e => .error e
    | .ok y =>
      match mapE f xs with
      | .error e => .error e
      | .ok ys => .ok (y :: ys)

/-- One table row: an ordered mapping from column label to cell value,
as built by the dict literals inside each comprehension of the source. -/
abbrev Row := List (String × J)

/-- Modelled from the spec: the Table Renderer (§4.3) is the external
`tabulate` library in the source; this model stringifies a cell the way
the renderer displays it (None as the empty missing-value, scalars via
`str`, container cells abbreviated — the pipeline's claims never inspect
container-cell text). -/
def cellDisplay : J → String
  | .null => ""
  | .b true => "True"
  | .b false => "False"
  | .i n => toString n
  | .s v => v
  | .arr _ => "[...]"
  | .obj _ => "\x7b...\x7d"

/-- Modelled from the spec: a cell that looks numeric, for the renderer's
`numalign="center"` column alignment. -/
def isNumericCell : J → Bool
  | .i _ => true
  | .null => true
  | _ => false

/-- A string of `n` copies of `c`. -/
def padChar (c : Char) (n : Nat) : String :=
  String.mk (List.replicate n c)

/-- Left alignment to width `w` (the renderer's `stralign="left"`). -/
def alignLeft (w : Nat) (t : String) : String :=
  t ++ padChar ' ' (w - t.length)

/-- Center alignment to width `w` (the renderer's `numalign="center"`). -/
def alignCenter (w : Nat) (t : String) : String :=
  padChar ' ' ((w - t.length) / 2) ++ t ++ padChar ' ' (w - t.length - (w - t.length) / 2)

/-- The cell of row `r` in column `h` (absent cells count as missing). -/
def rowCell (r : Row) (h : String) : J :=
  (r.lookup h).getD J.null

/-- A column is numeric when every cell of it looks numeric. -/
def colIsNumeric (rows : List Row) (h : String) : Bool :=
  rows.all (fun r => isNumericCell (rowCell r h))

/-- Column width: the widest of the header and every cell display. -/
def colWidth (rows : List Row) (h : String) : Nat :=
  (rows.map (fun r => (cellDisplay (rowCell r h)).length)).foldl max h.length

/-- A horizontal grid separator built from `c`, e.g. `+----+------+`. -/
def sepLine (c : Char) (ws : List Nat) : String :=
  "+" ++ String.join (ws.map (fun w => padChar c (w + 2) ++ "+"))

/-- One rendered cell, aligned and padded to its column. -/
def cellRender (numeric : Bool) (w : Nat) (t : String) : String :=
  if numeric then alignCenter w t else alignLeft w t

/-- One rendered grid line, e.g. `| 1    | Name |`. -/
def lineOf (cells : List (Bool × Nat × String)) : String :=
  "|" ++ String.join (cells.map (fun c => " " ++ cellRender c.1 c.2.1 c.2.2 ++ " |"))

/-- Modelled from the spec: the Table Renderer (§4.3), realised in the
source by `tabulate(table_data, headers="keys", tablefmt="grid",
stralign="left", numalign="center")`.  Headers are the first row's keys in
order; data lines appear in row order, each followed by a separator. -/
def tabulateGrid (rows : List Row) : String :=
  match rows with
  | [] => ""
  | r0 :: _ =>
    let headers := r0.map Prod.fst
    let ws := headers.map (colWidth rows)
    let d := sepLine '-' ws
    let e := sepLine '=' ws
    let headLine := lineOf (headers.map (fun h => (colIsNumeric rows h, colWidth rows h, h)))
    let dataLines := rows.map
      (fun r => lineOf (headers.map (fun h => (colIsNumeric rows h, colWidth rows h, cellDisplay (rowCell r h)))))
    String.intercalate "\n" ([d, headLine, e] ++ (dataLines.map (fun l => [l, d])).flatten)

/-- One optional report section: nothing when the row list is empty, else a
blank line, the title line `<Title>:`, and the rendered table — exactly the
`if table_data: output += "\n\n<Title>:\n" + tabulate(...)` pattern each
handler repeats. -/
def sectionBlock (title : String) (rows : List Row) : String :=
  if rows.isEmpty then "" else "\n\n" ++ title ++ ":\n" ++ tabulateGrid rows

/-- One row of `search_funds`' table (`src/main.py` lines 69–83): the dict
literal built for each `fund`; on a non-dict record the first `fund.get`
raises. -/
def searchRow : J → Except PyErr Row
  | .obj kvs => .ok
      [("ID", dictGet kvs "id" (.s "N/A")),
       ("Key", dictGet kvs "key" (.s "N/A")),
       ("Name", dictGet kvs "name" (.s "N/A")),
       ("Tier", dictGet kvs "tier" (.s "N/A")),
       ("Type", dictGet kvs "type" (.s "N/A")),
       ("Jurisdiction", dictGet kvs "jurisdiction" (.s "N/A")),
       ("Portfolio", dictGet kvs "portfolio" (.s "N/A")),
       ("Funding Rounds", dictGet kvs "fundingRounds" (.s "N/A")),
       ("Retail ROI", dictGet kvs "retailRoi" (.s "N/A")),
       ("Lead Investments", dictGet kvs "leadInvestments" (.s "N/A"))]
  | _ => .error (.attributeError "object has no attribute get")

/-- One row of `get_all_funds`' table (lines 122–131; the `Key` column is
commented out in the source). -/
def allFundsRow : J → Except PyErr Row
  | .obj kvs => .ok
      [("ID", dictGet kvs "id" (.s "N/A")),
       ("Name", dictGet kvs "name" (.s "N/A")),
       ("Tier", dictGet kvs "tier" (.s "N/A")),
       ("Type", dictGet kvs "type" (.s "N/A"))]
  | _ => .error (.attributeError "object has no attribute get")

/-- The ten `Field`/`Value` rows of the basic main-metrics table
(lines 172–213), for a fund already known to be a dict. -/
def basicMainRows (kvs : List (String × J)) : List Row :=
  [[("Field", .s "ID"), ("Value", dictGet kvs "id" (.s "N/A"))],
   [("Field", .s "Key"), ("Value", dictGet kvs "key" (.s "N/A"))],
   [("Field", .s "Name"), ("Value", dictGet kvs "name" (.s "N/A"))],
   [("Field", .s "Tier"), ("Value", dictGet kvs "tier" (.s "N/A"))],
   [("Field", .s "Type"), ("Value", dictGet kvs "type" (.s "N/A"))],
   [("Field", .s "Jurisdiction"), ("Value", dictGet kvs "jurisdiction" (.s "N/A"))],
   [("Field", .s "Portfolio"), ("Value", dictGet kvs "portfolio" (.s "N/A"))],
   [("Field", .s "Funding Rounds"), ("Value", dictGet kvs "fundingRounds" (.s "N/A"))],
   [("Field", .s "Retail ROI"), ("Value", dictGet kvs "retailRoi" (.s "N/A"))],
   [("Field", .s "Lead Investments"), ("Value", dictGet kvs "leadInvestments" (.s "N/A"))]]

/-- One focus-area row (lines 217–224, and the identical 324–331). -/
def focusAreaRow : J → Except PyErr Row
  | .obj kvs => .ok
      [("ID", dictGet kvs "id" (.s "N/A")),
       ("Name", dictGet kvs "name" (.s "N/A")),
       ("Percent", dictGet kvs "percent" (.s "N/A"))]
  | _ => .error (.attributeError "object has no attribute get")

/-- One top-investment row (lines 228–236, and the identical 335–343). -/
def investmentRow : J → Except PyErr Row
  | .obj kvs => .ok
      [("ID", dictGet kvs "id" (.s "N/A")),
       ("Symbol", dictGet kvs "symbol" (.s "N/A")),
       ("Name", dictGet kvs "name" (.s "N/A")),
       ("Logo", dictGet kvs "logo" (.s "N/A"))]
  | _ => .error (.attributeError "object has no attribute get")

/-- The eleven `Field`/`Value` rows of the detail main table
(lines 298–310). -/
def detailMainRows (kvs : List (String × J)) : List Row :=
  [[("Field", .s "ID"), ("Value", dictGet kvs "id" (.s "N/A"))],
   [("Field", .s "Key"), ("Value", dictGet kvs "key" (.s "N/A"))],
   [("Field", .s "Name"), ("Value", dictGet kvs "name" (.s "N/A"))],
   [("Field", .s "Tier"), ("Value", dictGet kvs "tier" (.s "N/A"))],
   [("Field", .s "Type"), ("Value", dictGet kvs "type" (.s "N/A"))],
   [("Field", .s "Jurisdiction"), ("Value", dictGet kvs "jurisdiction" (.s "N/A"))],
   [("Field", .s "Description"), ("Value", dictGet kvs "description" (.s "N/A"))],
   [("Field", .s "Portfolio"), ("Value", dictGet kvs "portfolio" (.s "N/A"))],
   [("Field", .s "Funding Rounds"), ("Value", dictGet kvs "fundingRounds" (.s "N/A"))],
   [("Field", .s "Retail ROI"), ("Value", dictGet kvs "retailRoi" (.s "N/A"))],
   [("Field", .s "Lead Investments"), ("Value", dictGet kvs "leadInvestments" (.s "N/A"))]]

/-- One fund-link row of the detail report (lines 314–320). -/
def fundLinkRow : J → Except PyErr Row
  | .obj kvs => .ok
      [("Type", dictGet kvs "type" (.s "N/A")),
       ("Value", dictGet kvs "value" (.s "N/A"))]
  | _ => .error (.attributeError "object has no attribute get")

/-- One funding-location row (lines 347–353). -/
def locationRow : J → Except PyErr Row
  | .obj kvs => .ok
      [("Code", dictGet kvs "code" (.s "N/A")),
       ("Count", dictGet kvs "count" (.s "N/A"))]
  | _ => .error (.attributeError "object has no attribute get")

/-- One recent-round row (lines 357–366). -/
def roundRow : J → Except PyErr Row
  | .obj kvs => .ok
      [("ID", dictGet kvs "id" (.s "N/A")),
       ("Name", dictGet kvs "name" (.s "N/A")),
       ("Logo", dictGet kvs "logo" (.s "N/A")),
       ("Raise", dictGet kvs "raise" (.s "N/A")),
       ("Date", dictGet kvs "date" (.s "N/A"))]
  | _ => .error (.attributeError "object has no attribute get")

/-- One average-rounds-raise row (lines 370–377). -/
def avgRaiseRow : J → Except PyErr Row
  | .obj kvs => .ok
      [("Raise From", dictGet kvs "raiseFrom" (.s "N/A")),
       ("Raise To", dictGet kvs "raiseTo" (.s "N/A")),
       ("Percent", dictGet kvs "percent" (.s "N/A"))]
  | _ => .error (.attributeError "object has no attribute get")

/-- One investment-stage row (lines 381–387): the `Type` cell is
`stage.get("type", ["N/A"])[0] if stage.get("type") else "N/A"`. -/
def stageRow : J → Except PyErr Row
  | .obj kvs =>
    if (dictGet kvs "type" J.null).truthy then
      match pyIndex0 (dictGet kvs "type" (.arr [.s "N/A"])) with
      | .error e => .error e
      | .ok t => .ok [("Type", t), ("Percent", dictGet kvs "percent" (.s "N/A"))]
    else .ok [("Type", .s "N/A"), ("Percent", dictGet kvs "percent" (.s "N/A"))]
  | _ => .error (.attributeError "object has no attribute get")

/-- One team-roster row (lines 501–509): the `Jobs` cell is
`", ".join(member.get("jobs", ["N/A"]))`, which raises when the member's
`jobs` value is present but not a list of strings. -/
def teamRow : J → Except PyErr Row
  | .obj kvs =>
    match pyJoin ", " (dictGet kvs "jobs" (.arr [.s "N/A"])) with
    | .error e => .error e
    | .ok jobsStr => .ok
        [("ID", dictGet kvs "id" (.s "N/A")),
         ("Name", dictGet kvs "name" (.s "N/A")),
         ("Jobs", .s jobsStr),
         ("Priority", dictGet kvs "priority" (.s "N/A"))]
  | _ => .error (.attributeError "object has no attribute get")

/-- The link rows contributed by one team member (lines 513–520): one row
per link in the member's `links` list, each tagged with the member's
name. -/
def memberLinkRows : J → Except PyErr (List Row)
  | .obj kvs =>
    match J.iter (dictGet kvs "links" (.arr [])) with
    | .error e => .error e
    | .ok links =>
      mapE (fun link =>
        match link with
        | .obj lk => .ok
            [("Member Name", dictGet kvs "name" (.s "N/A")),
             ("Link Type", dictGet lk "type" (.s "N/A")),
             ("Link Value", dictGet lk "value" (.s "N/A"))]
        | _ => .error (.attributeError "object has no attribute get")) links
  | _ => .error (.attributeError "object has no attribute get")

/-- The `search_funds` transformation stage (lines 60–92): pull the `data`
field, return the no-filtered-data literal when it is falsy, else project
every fund into a row and render one grid. -/
def search_funds_transform (resp : J) : Except PyErr String :=
  match pyGet resp "data" (.arr []) with
  | .error e => .error e
  | .ok fundsData =>
    if fundsData.truthy then
      match fundsData.iter with
      | .error e => .error e
      | .ok funds =>
        match mapE searchRow funds with
        | .error e => .error e
        | .ok tableData => .ok (tabulateGrid tableData)
    else .ok "No funds data available for the specified filters."

/-- The `get_all_funds` transformation stage (lines 113–140). -/
def get_all_funds_transform (resp : J) : Except PyErr String :=
  match pyGet resp "data" (.arr []) with
  | .error e => .error e
  | .ok fundsData =>
    if fundsData.truthy then
      match fundsData.iter with
      | .error e => .error e
      | .ok funds =>
        match mapE allFundsRow funds with
        | .error e => .error e
        | .ok tableData => .ok (tabulateGrid tableData)
    else .ok "No funds data available."

/-- The `get_fund_basic` transformation stage (lines 161–268): take the
first record of `data`, build the main-metrics table unconditionally and
the focus-area / top-investment sections only when they have rows. -/
def get_fund_basic_transform (fund_id : Int) (resp : J) : Except PyErr String :=
  match pyGet resp "data" (.arr []) with
  | .error e => .error e
  | .ok fundData =>
    if fundData.truthy then
      match pyIndex0 fundData with
      | .error e => .error e
      | .ok fund =>
        match fund with
        | .obj kvs =>
          match (dictGet kvs "focusArea" (.arr [])).iter with
          | .error e => .error e
          | .ok areas =>
            match mapE focusAreaRow areas with
            | .error e => .error e
            | .ok focusT =>
              match (dictGet kvs "topInvestments" (.arr [])).iter with
              | .error e => .error e
              | .ok invs =>
                match mapE investmentRow invs with
                | .error e => .error e
                | .ok invT => .ok
                    ("Fund Metrics:\n" ++ tabulateGrid (basicMainRows kvs)
                      ++ sectionBlock "Focus Areas" focusT
                      ++ sectionBlock "Top Investments (Last 12 Months)" invT)
        | _ => .error (.attributeError "object has no attribute get")
    else .ok ("No data available for fund ID " ++ toString fund_id ++ ".")

/-- The `get_fund_detail` transformation stage (lines 289–469): here `data`
defaults to an empty dict, and eight tables are carved out of the one fund
record; each optional section is appended only when it has rows. -/
def get_fund_detail_transform (fund_id : Int) (resp : J) : Except PyErr String :=
  match pyGet resp "data" (.obj []) with
  | .error e => .error e
  | .ok fund =>
    if fund.truthy then
      match fund with
      | .obj kvs =>
        match (dictGet kvs "links" (.arr [])).iter with
        | .error e => .error e
        | .ok links =>
          match mapE fundLinkRow links with
          | .error e => .error e
          | .ok linksT =>
            match (dictGet kvs "focusArea" (.arr [])).iter with
            | .error e => .error e
            | .ok areas =>
              match mapE focusAreaRow areas with
              | .error e => .error e
              | .ok focusT =>
                match (dictGet kvs "topInvestments" (.arr [])).iter with
                | .error e => .error e
                | .ok invs =>
                  match mapE investmentRow invs with
                  | .error e => .error e
                  | .ok invT =>
                    match (dictGet kvs "fundingLocations" (.arr [])).iter with
                    | .error e => .error e
                    | .ok locs =>
                      match mapE locationRow locs with
                      | .error e => .error e
                      | .ok locT =>
                        match (dictGet kvs "recentRounds" (.arr [])).iter with
                        | .error e => .error e
                        | .ok rnds =>
                          match mapE roundRow rnds with
                          | .error e => .error e
                          | .ok rndT =>
                            match (dictGet kvs "avgRoundsRaise" (.arr [])).iter with
                            | .error e => .error e
                            | .ok avgs =>
                              match mapE avgRaiseRow avgs with
                              | .error e => .error e
                              | .ok avgT =>
                                match (dictGet kvs "investmentStages" (.arr [])).iter with
                                | .error e => .error e
                                | .ok stages =>
                                  match mapE stageRow stages with
                                  | .error e => .error e
                                  | .ok stageT => .ok
                                      ("Comprehensive Fund Data:\n" ++ tabulateGrid (detailMainRows kvs)
                                        ++ sectionBlock "Links" linksT
                                        ++ sectionBlock "Focus Areas" focusT
                                        ++ sectionBlock "Top Investments (Recent)" invT
                                        ++ sectionBlock "Funding Locations" locT
                                        ++ sectionBlock "Recent Funding Rounds" rndT
                                        ++ sectionBlock "Average Rounds Raise" avgT
                                        ++ sectionBlock "Investment Stages" stageT)
      | _ => .error (.attributeError "object has no attribute get")
    else .ok ("No data available for fund ID " ++ toString fund_id ++ ".")

/-- The `get_fund_team` transformation stage (lines 492–542): a roster row
per member, then the one-to-many flattening of every member's links, the
links section appended only when it has rows. -/
def get_fund_team_transform (fund_id : Int) (resp : J) : Except PyErr String :=
  match pyGet resp "data" (.arr []) with
  | .error e => .error e
  | .ok teamData =>
    if teamData.truthy then
      match teamData.iter with
      | .error e => .error e
      | .ok members =>
        match mapE teamRow members with
        | .error e => .error e
        | .ok teamT =>
          match mapE memberLinkRows members with
          | .error e => .error e
          | .ok linkLists =>
            .ok ("Fund Team Details:\n" ++ tabulateGrid teamT
                  ++ sectionBlock "Team Social Links" linkLists.flatten)
    else .ok ("No team data available for fund ID " ++ toString fund_id ++ ".")

/-- The message of the credential `ValueError` every tool raises first
(lines 39, 104, 152, 280, 483). -/
def cfgMsg : String := "CRYPTORANK_API_KEY environment variable is required in .env file."

/-- Truthiness of `os.getenv("CRYPTORANK_API_KEY")`: falsy when the
variable is unset (None) or set to the empty string. -/
def apiKeyTruthy : Option String → Bool
  | none => false
  | some k => !k.isEmpty

/-- The outcome of the one HTTP fetch an operation performs: either an
`httpx.HTTPError` (non-2xx status via `raise_for_status`, transport
failure, or timeout) with its message, or a decoded JSON body. -/
inductive FetchOutcome where
  | httpError (msg : String)
  | body (json : J)

/-- The query-parameter dict `search_funds` builds (lines 43–54): the four
base entries, then `tier` / `type` appended only when truthy — a `None`
argument and an empty-list argument are both skipped. -/
def search_funds_params (tier : Option (List Int)) (type : Option (List String))
    (sortBy : String) (sortDirection : String) (limit : Int) (skip : Int) :
    List (String × J) :=
  let base := [("sortBy", J.s sortBy), ("sortDirection", J.s sortDirection),
               ("limit", J.i limit), ("skip", J.i skip)]
  let withTier :=
    match tier with
    | some (t :: ts) => base ++ [("tier", J.arr ((t :: ts).map J.i))]
    | _ => base
  match type with
  | some (t :: ts) => withTier ++ [("type", J.arr ((t :: ts).map J.s))]
  | _ => withTier

/-- The `search_funds` tool (lines 17–94): credential check first, then the
fetch, whose failure is wrapped as a `ValueError`, then the transformation
stage.  The fetch outcome is an input, so that behaviour can be stated for
every response. -/
def search_funds (apiKey : Option String) (tier : Option (List Int))
    (type : Option (List String)) (sortBy : String) (sortDirection : String)
    (limit : Int) (skip : Int) (fetch : FetchOutcome) : Except PyErr String :=
  if apiKeyTruthy apiKey then
    match fetch with
    | .httpError msg => .error (.valueError ("Failed to fetch funds: " ++ msg))
    | .body data => search_funds_transform data
  else .error (.valueError cfgMsg)

/-- The `get_all_funds` tool (lines 96–142). -/
def get_all_funds (apiKey : Option String) (fetch : FetchOutcome) :
    Except PyErr String :=
  if apiKeyTruthy apiKey then
    match fetch with
    | .httpError msg => .error (.valueError ("Failed to fetch funds: " ++ msg))
    | .body data => get_all_funds_transform data
  else .error (.valueError cfgMsg)

/-- The `get_fund_basic` tool (lines 144–270). -/
def get_fund_basic (apiKey : Option String) (fund_id : Int)
    (fetch : FetchOutcome) : Except PyErr String :=
  if apiKeyTruthy apiKey then
    match fetch with
    | .httpError msg => .error (.valueError
        ("Failed to fetch metrics for fund ID " ++ toString fund_id ++ ": " ++ msg))
    | .body data => get_fund_basic_transform fund_id data
  else .error (.valueError cfgMsg)

/-- The `get_fund_detail` tool (lines 272–471). -/
def get_fund_detail (apiKey : Option String) (fund_id : Int)
    (fetch : FetchOutcome) : Except PyErr String :=
  if apiKeyTruthy apiKey then
    match fetch with
    | .httpError msg => .error (.valueError
        ("Failed to fetch comprehensive data for fund ID " ++ toString fund_id ++ ": " ++ msg))
    | .body data => get_fund_detail_transform fund_id data
  else .error (.valueError cfgMsg)

/-- The `get_fund_team` tool (lines 475–544). -/
def get_fund_team (apiKey : Option String) (fund_id : Int)
    (fetch : FetchOutcome) : Except PyErr String :=
  if apiKeyTruthy apiKey then
    match fetch with
    | .httpError msg => .error (.valueError
        ("Failed to fetch team data for fund ID " ++ toString fund_id ++ ": " ++ msg))
    | .body data => get_fund_team_transform fund_id data
  else .error (.valueError cfgMsg)

/-- Boolean prefix test on character lists, for concrete report checks. -/
def isPrefixB : List Char → List Char → Bool
  | [], _ => true
  | _ :: _, [] => false
  | a :: xs, b :: ys => a == b && isPrefixB xs ys

/-- Boolean substring test on character lists. -/
def isInfixB (pat : List Char) : List Char → Bool
  | [] => isPrefixB pat []
  | b :: t => isPrefixB pat (b :: t) || isInfixB pat t

/-- A well-formed `/funds/{id}` example fund whose `focusArea` is the
empty list (and which has one top investment). -/
def basicFundEx : List (String × J) :=
  [("id", J.i 1), ("key", J.s "abc"), ("name", J.s "Fund A"),
   ("focusArea", J.arr []),
   ("topInvestments", J.arr [J.obj [("id", J.i 9), ("symbol", J.s "XX"),
                                    ("name", J.s "Coin"), ("logo", J.s "L")]])]

/-- The `/funds/{id}` response body around `basicFundEx`. -/
def basicRespEx : J := J.obj [("data", J.arr [J.obj basicFundEx])]

/-- The report `get_fund_basic` produces for `basicRespEx`: the
main-metrics table and the top-investments section, with no focus-areas
section at all. -/
def basicOutEx : String :=
  "Fund Metrics:\n" ++ tabulateGrid (basicMainRows basicFundEx)
    ++ sectionBlock "Top Investments (Last 12 Months)"
        [[("ID", J.i 9), ("Symbol", J.s "XX"), ("Name", J.s "Coin"), ("Logo", J.s "L")]]

/-- A value that is a dict. -/
def isObjB : J → Bool
  | .obj _ => true
  | _ => false

/-- An optional list-of-records field: absent, or bound to a list whose
elements are all dicts.  (A present non-list — e.g. null — is looped over
by the source and can raise.) -/
def fieldObjList (kvs : List (String × J)) (k : String) : Bool :=
  match kvs.lookup k with
  | none => true
  | some (.arr xs) => xs.all isObjB
  | some _ => false

/-- A well-typed `jobs` field: absent, or a list of strings. -/
def jobsFieldOk (kvs : List (String × J)) : Bool :=
  match kvs.lookup "jobs" with
  | none => true
  | some (.arr xs) => (strList xs).isSome
  | some _ => false

/-- A well-typed team member record. -/
def memberOk : J → Bool
  | .obj kvs => jobsFieldOk kvs && fieldObjList kvs "links"
  | _ => false

/-- A well-typed investment-stage record: its `type` is absent, a list, or
falsy. -/
def stageOk : J → Bool
  | .obj kvs =>
    match kvs.lookup "type" with
    | none => true
    | some (.arr _) => true
    | some v => !v.truthy
  | _ => false

/-- A well-typed `investmentStages` field: absent, or a list of well-typed
stage records. -/
def stagesFieldOk (kvs : List (String × J)) : Bool :=
  match kvs.lookup "investmentStages" with
  | none => true
  | some (.arr xs) => xs.all stageOk
  | some _ => false

/-- A list of records satisfying `recOk`. -/
def dataArrOk (recOk : J → Bool) : J → Bool
  | .arr xs => xs.all recOk
  | _ => false

/-- A well-typed list-endpoint response: a dict whose `data`, when present
and truthy, is a list of records satisfying `recOk`. -/
def dataListOk (recOk : J → Bool) : J → Bool
  | .obj kvs =>
    match kvs.lookup "data" with
    | none => true
    | some d => !d.truthy || dataArrOk recOk d
  | _ => false

/-- A well-typed fund record for `get_fund_basic`: the optional
sub-collections are lists of dicts when present. -/
def basicFundOk : J → Bool
  | .obj kvs => fieldObjList kvs "focusArea" && fieldObjList kvs "topInvestments"
  | _ => false

/-- A list whose first record is a well-typed basic fund. -/
def dataFirstOk : J → Bool
  | .arr (f :: _) => basicFundOk f
  | _ => false

/-- A well-typed `/funds/{id}` response: when `data` is present and truthy
it is a list whose first record (the only one read) is a well-typed
fund. -/
def basicRespOk : J → Bool
  | .obj kvs =>
    match kvs.lookup "data" with
    | none => true
    | some d => !d.truthy || dataFirstOk d
  | _ => false

/-- A well-typed full-metadata fund record. -/
def detailFundOk : J → Bool
  | .obj kvs =>
    fieldObjList kvs "links" && fieldObjList kvs "focusArea" &&
    fieldObjList kvs "topInvestments" && fieldObjList kvs "fundingLocations" &&
    fieldObjList kvs "recentRounds" && fieldObjList kvs "avgRoundsRaise" &&
    stagesFieldOk kvs
  | _ => false

/-- A well-typed `/funds/{id}/full-metadata` response. -/
def detailRespOk : J → Bool
  | .obj kvs =>
    match kvs.lookup "data" with
    | none => true
    | some d => !d.truthy || detailFundOk d
  | _ => false

/-- A string never equals an extension of a non-prefix. -/
theorem ne_append_of_absent_start (t p q : String) (h : ¬ p.data <+: t.data) :
    t ≠ p ++ q := by
  intro he
  apply h
  have hp : p.data <+: (p ++ q).data := by
    rw [String.data_append]; exact ⟨q.data, rfl⟩
  rw [← he] at hp; exact hp

/-- Two `ValueError`s with different messages are different errors. -/
theorem valueError_ne_of_ne {t u : String} (h : t ≠ u) :
    PyErr.valueError t ≠ PyErr.valueError u := by
  intro he; injection he with h2; exact h h2

/-- An unset or empty credential is falsy. -/
theorem apiKeyTruthy_false {k : Option String} (h : k = none ∨ k = some "") :
    apiKeyTruthy k = false := by
  rcases h with h | h <;> subst h <;> rfl

/-- C4: with the credential unset or empty, every tool yields the fixed
configuration `ValueError` whatever the fetch outcome is — the result does
not depend on the fetch at all, so no network interaction is needed or
consulted — and that configuration error is distinct from every error the
network/API failure path of any tool can produce. -/
theorem c4_missing_credential_config_error :
    (∀ tier type sortBy sortDirection limit skip f f' k, (k = none ∨ k = some "") →
        search_funds k tier type sortBy sortDirection limit skip f
          = .error (.valueError cfgMsg) ∧
        search_funds k tier type sortBy sortDirection limit skip f
          = search_funds k tier type sortBy sortDirection limit skip f') ∧
    (∀ f f' k, (k = none ∨ k = some "") →
        get_all_funds k f = .error (.valueError cfgMsg) ∧
        get_all_funds k f = get_all_funds k f') ∧
    (∀ i f f' k, (k = none ∨ k = some "") →
        get_fund_basic k i f = .error (.valueError cfgMsg) ∧
        get_fund_basic k i f = get_fund_basic k i f') ∧
    (∀ i f f' k, (k = none ∨ k = some "") →
        get_fund_detail k i f = .error (.valueError cfgMsg) ∧
        get_fund_detail k i f = get_fund_detail k i f') ∧
    (∀ i f f' k, (k = none ∨ k = some "") →
        get_fund_team k i f = .error (.valueError cfgMsg) ∧
        get_fund_team k i f = get_fund_team k i f') ∧
    (∀ m, PyErr.valueError cfgMsg
        ≠ PyErr.valueError ("Failed to fetch funds: " ++ m)) ∧
    (∀ (i : Int) m, PyErr.valueError cfgMsg
        ≠ PyErr.valueError ("Failed to fetch metrics for fund ID " ++ toString i ++ ": " ++ m)) ∧
    (∀ (i : Int) m, PyErr.valueError cfgMsg
        ≠ PyErr.valueError ("Failed to fetch comprehensive data for fund ID " ++ toString i ++ ": " ++ m)) ∧
    (∀ (i : Int) m, PyErr.valueError cfgMsg
        ≠ PyErr.valueError ("Failed to fetch team data for fund ID " ++ toString i ++ ": " ++ m)) := by
  refine ⟨?_, ?_, ?_, ?_, ?_, ?_, ?_, ?_, ?_⟩
  · intro tier type sortBy sortDirection limit skip f f' k hk
    rcases hk with h | h <;> subst h <;> exact ⟨rfl, rfl⟩
  · intro f f' k hk
    rcases hk with h | h <;> subst h <;> exact ⟨rfl, rfl⟩
  · intro i f f' k hk
    rcases hk with h | h <;> subst h <;> exact ⟨rfl, rfl⟩
  · intro i f f' k hk
    rcases hk with h | h <;> subst h <;> exact ⟨rfl, rfl⟩
  · intro i f f' k hk
    rcases hk with h | h <;> subst h <;> exact ⟨rfl, rfl⟩
  · intro m
    exact valueError_ne_of_ne (ne_append_of_absent_start _ _ _ (by decide))
  · intro i m
    rw [String.append_assoc, String.append_assoc]
    exact valueError_ne_of_ne (ne_append_of_absent_start _ _ _ (by decide))
  · intro i m
    rw [String.append_assoc, String.append_assoc]
    exact valueError_ne_of_ne (ne_append_of_absent_start _ _ _ (by decide))
  · intro i m
    rw [String.append_assoc, String.append_assoc]
    exact valueError_ne_of_ne (ne_append_of_absent_start _ _ _ (by decide))

/-- C4 witness: the theorem applied to `search_funds` with the variable
unset, `get_fund_team` with it set to the empty string, and one concrete
error-distinctness instance. -/
theorem c4_missing_credential_config_error_witness :
    search_funds none none none "tier" "ASC" 100 0 (.body (J.obj []))
      = .error (.valueError cfgMsg) ∧
    get_fund_team (some "") 3 (.httpError "timeout")
      = .error (.valueError cfgMsg) ∧
    PyErr.valueError cfgMsg ≠ PyErr.valueError ("Failed to fetch funds: " ++ "timeout") :=
  ⟨(c4_missing_credential_config_error.1 none none "tier" "ASC" 100 0
      (.body (J.obj [])) (.body (J.obj [])) none (Or.inl rfl)).1,
   (c4_missing_credential_config_error.2.2.2.2.1 3 (.httpError "timeout")
      (.httpError "timeout") (some "") (Or.inr rfl)).1,
   c4_missing_credential_config_error.2.2.2.2.2.1 "timeout"⟩

/-- C5: when the decoded `/funds` body's `data` field is absent or the
empty list, `search_funds`' transformation returns — normally, not as an
error — exactly the no-filtered-data literal, and nothing else. -/
theorem c5_empty_data_literal_message (kvs : List (String × J))
    (hdata : List.lookup "data" kvs = none ∨ List.lookup "data" kvs = some (J.arr [])) :
    search_funds_transform (J.obj kvs)
      = .ok "No funds data available for the specified filters." := by
  rcases hdata with h | h <;>
    simp [search_funds_transform, pyGet, dictGet, h, J.truthy]

/-- C5 witness: the theorem applied to a body with `data: []` and to a body
with no `data` key. -/
theorem c5_empty_data_literal_message_witness :
    search_funds_transform (J.obj [("data", J.arr [])])
      = .ok "No funds data available for the specified filters." ∧
    search_funds_transform (J.obj [("status", J.s "ok")])
      = .ok "No funds data available for the specified filters." :=
  ⟨c5_empty_data_literal_message _ (Or.inr rfl),
   c5_empty_data_literal_message _ (Or.inl rfl)⟩

/-- C9: `search_funds` treats an empty `tier` (or `type`) filter list
exactly like an omitted one: the query-parameter dict is identical, and
with the same fetch outcome the whole call's result is identical. -/
theorem c9_empty_filter_lists_like_absent :
    ∀ tier type sortBy sortDirection limit skip apiKey fetch,
      search_funds_params (some []) type sortBy sortDirection limit skip
        = search_funds_params none type sortBy sortDirection limit skip ∧
      search_funds_params tier (some []) sortBy sortDirection limit skip
        = search_funds_params tier none sortBy sortDirection limit skip ∧
      search_funds apiKey (some []) type sortBy sortDirection limit skip fetch
        = search_funds apiKey none type sortBy sortDirection limit skip fetch ∧
      search_funds apiKey tier (some []) sortBy sortDirection limit skip fetch
        = search_funds apiKey tier none sortBy sortDirection limit skip fetch := by
  intro tier type sortBy sortDirection limit skip apiKey fetch
  exact ⟨rfl, rfl, rfl, rfl⟩

/-- C10: `get_fund_basic`'s transformation reads only the first record of
the `data` list: two responses agreeing on the first record produce the
same report, whatever the later records are. -/
theorem c10_basic_first_record_only
    (fund_id : Int) (kvs kvs2 : List (String × J)) (x : J) (rest rest2 : List J)
    (h : List.lookup "data" kvs = some (J.arr (x :: rest)))
    (h2 : List.lookup "data" kvs2 = some (J.arr (x :: rest2))) :
    get_fund_basic_transform fund_id (J.obj kvs)
      = get_fund_basic_transform fund_id (J.obj kvs2) := by
  simp [get_fund_basic_transform, pyGet, dictGet, h, h2, J.truthy, pyIndex0]

/-- C10 witness: the theorem applied to a two-record and a three-record
response sharing their first record. -/
theorem c10_basic_first_record_only_witness :
    get_fund_basic_transform 5
      (J.obj [("data", J.arr [J.obj [("id", J.i 5)], J.obj [("id", J.i 6)]])])
      = get_fund_basic_transform 5
      (J.obj [("data", J.arr [J.obj [("id", J.i 5)], J.obj [("name", J.s "x")], J.null])]) :=
  c10_basic_first_record_only 5 _ _ _ _ _ rfl rfl

/-- C2 counterexample: a fund record with `"tier": null` does NOT get the
fallback literal in the Tier column — `dict.get` returns the stored null,
which the renderer then shows as a blank, so the extracted value differs
from `"N/A"`. -/
theorem c2_counterexample_present_null_tier :
    (searchRow (J.obj [("id", J.i 1), ("tier", J.null)])).map
        (fun r => List.lookup "Tier" r) = .ok (some J.null) ∧
    J.null ≠ J.s "N/A" ∧ cellDisplay J.null ≠ "N/A" :=
  ⟨rfl, fun h => J.noConfusion h, by decide⟩

/-- C2 amended: the fallback literal is substituted exactly when the mapped
key is absent; a key that is present keeps its stored value — including the
null value, which the renderer displays as a blank cell, not as `"N/A"`. -/
theorem c2_amended_fallback_only_when_absent
    (kvs : List (String × J)) (k : String) (v d : J) :
    (List.lookup k kvs = some v → pyGet (J.obj kvs) k d = .ok v) ∧
    (List.lookup k kvs = none → pyGet (J.obj kvs) k d = .ok d) ∧
    cellDisplay J.null = "" := by
  refine ⟨?_, ?_, rfl⟩ <;> intro h <;> simp [pyGet, dictGet, h]

/-- C2 witness: the amended theorem applied to a record with `tier: null`
(the stored null survives) and to a record without a `tier` key (the
`"N/A"` fallback appears). -/
theorem c2_amended_fallback_only_when_absent_witness :
    pyGet (J.obj [("tier", J.null)]) "tier" (J.s "N/A") = .ok J.null ∧
    pyGet (J.obj [("name", J.s "a")]) "tier" (J.s "N/A") = .ok (J.s "N/A") :=
  ⟨(c2_amended_fallback_only_when_absent [("tier", J.null)] "tier" J.null (J.s "N/A")).1 rfl,
   (c2_amended_fallback_only_when_absent [("name", J.s "a")] "tier" J.null (J.s "N/A")).2.1 rfl⟩

/-- C7: an investment-stage row's `Type` cell is the first element of the
stage's `type` list when that list is non-empty, and the `"N/A"` fallback
when the `type` field is an empty list or absent (and also when it is
null). -/
theorem c7_stage_type_first_element (kvs : List (String × J)) :
    (∀ t ts, List.lookup "type" kvs = some (J.arr (t :: ts)) →
        stageRow (J.obj kvs)
          = .ok [("Type", t), ("Percent", dictGet kvs "percent" (J.s "N/A"))]) ∧
    (List.lookup "type" kvs = some (J.arr []) ∨ List.lookup "type" kvs = none ∨
        List.lookup "type" kvs = some J.null →
        stageRow (J.obj kvs)
          = .ok [("Type", J.s "N/A"), ("Percent", dictGet kvs "percent" (J.s "N/A"))]) := by
  constructor
  · intro t ts h
    simp [stageRow, dictGet, h, J.truthy, pyIndex0]
  · intro h
    rcases h with h | h | h <;> simp [stageRow, dictGet, h, J.truthy]

/-- C7 witness: the theorem applied to a stage with `type: ["Seed", "A"]`
(first element shown) and to stages with `type: []` and no `type` key
(fallback shown). -/
theorem c7_stage_type_first_element_witness :
    stageRow (J.obj [("type", J.arr [J.s "Seed", J.s "A"]), ("percent", J.i 40)])
      = .ok [("Type", J.s "Seed"), ("Percent", J.i 40)] ∧
    stageRow (J.obj [("type", J.arr []), ("percent", J.i 60)])
      = .ok [("Type", J.s "N/A"), ("Percent", J.i 60)] ∧
    stageRow (J.obj [("percent", J.i 60)])
      = .ok [("Type", J.s "N/A"), ("Percent", J.i 60)] :=
  ⟨(c7_stage_type_first_element _).1 (J.s "Seed") [J.s "A"] rfl,
   (c7_stage_type_first_element _).2 (Or.inl rfl),
   (c7_stage_type_first_element _).2 (Or.inr (Or.inl rfl))⟩

/-- A comprehension over constructor-shaped inputs succeeds elementwise. -/
theorem mapE_map_ok {α β γ : Type} (f : γ → Except PyErr β) (g : α → γ) (r : α → β)
    (hc : ∀ x, f (g x) = .ok (r x)) :
    ∀ xs : List α, mapE f (xs.map g) = .ok (xs.map r) := by
  intro xs
  induction xs with
  | nil => rfl
  | cons x xs ih => simp [mapE, hc, ih]

/-- A successful comprehension has one output per input, at the same
position. -/
theorem mapE_length_get {α β : Type} (f : α → Except PyErr β) :
    ∀ (xs : List α) (ys : List β), mapE f xs = .ok ys →
      ys.length = xs.length ∧
      ∀ i (hx : i < xs.length) (hy : i < ys.length),
        f (xs.get ⟨i, hx⟩) = .ok (ys.get ⟨i, hy⟩) := by
  intro xs
  induction xs with
  | nil =>
    intro ys h
    injection h with h2
    subst h2
    exact ⟨rfl, fun i hx _ => absurd hx (Nat.not_lt_zero i)⟩
  | cons x xs ih =>
    intro ys h
    unfold mapE at h
    cases hfx : f x with
    | error e => rw [hfx] at h; exact absurd h (by simp)
    | ok y =>
      rw [hfx] at h
      cases hm : mapE f xs with
      | error e => rw [hm] at h; exact absurd h (by simp)
      | ok ys0 =>
        rw [hm] at h
        obtain ⟨hl, hg⟩ := ih ys0 hm
        injection h with h2
        subst h2
        refine ⟨by simp [hl], ?_⟩
        intro i hx hy
        match i with
        | 0 => exact hfx
        | Nat.succ j => exact hg j (by simpa using hx) (by simpa using hy)

/-- C6: the team links section is a one-to-many flattening: each member
contributes one row per link it declares, in link order, every row tagged
with that member's name; hence two members — the first with two links, the
second with none — yield exactly two rows, both carrying the first
member's name, in member order then link order. -/
theorem c6_team_links_flatten :
    (∀ (mk : List (String × J)) (lks : List (List (String × J))),
        List.lookup "links" mk = some (J.arr (lks.map J.obj)) →
        memberLinkRows (J.obj mk) = .ok (lks.map (fun lk =>
          [("Member Name", dictGet mk "name" (J.s "N/A")),
           ("Link Type", dictGet lk "type" (J.s "N/A")),
           ("Link Value", dictGet lk "value" (J.s "N/A"))]))) ∧
    (∀ (mk1 mk2 : List (String × J)) (n1 : J) (l1 l2 : List (String × J)),
        List.lookup "name" mk1 = some n1 →
        List.lookup "links" mk1 = some (J.arr [J.obj l1, J.obj l2]) →
        List.lookup "links" mk2 = some (J.arr []) →
        (mapE memberLinkRows [J.obj mk1, J.obj mk2]).map List.flatten = .ok
          [[("Member Name", n1), ("Link Type", dictGet l1 "type" (J.s "N/A")),
            ("Link Value", dictGet l1 "value" (J.s "N/A"))],
           [("Member Name", n1), ("Link Type", dictGet l2 "type" (J.s "N/A")),
            ("Link Value", dictGet l2 "value" (J.s "N/A"))]]) := by
  have main : ∀ (mk : List (String × J)) (lks : List (List (String × J))),
      List.lookup "links" mk = some (J.arr (lks.map J.obj)) →
      memberLinkRows (J.obj mk) = .ok (lks.map (fun lk =>
        [("Member Name", dictGet mk "name" (J.s "N/A")),
         ("Link Type", dictGet lk "type" (J.s "N/A")),
         ("Link Value", dictGet lk "value" (J.s "N/A"))])) := by
    intro mk lks h
    simp only [memberLinkRows, dictGet, h, Option.getD_some, J.iter]
    apply mapE_map_ok
    intro lk
    rfl
  refine ⟨main, ?_⟩
  intro mk1 mk2 n1 l1 l2 hn hl1 hl2
  have h1 := main mk1 [l1, l2] hl1
  have h2 := main mk2 [] hl2
  simp [mapE, h1, h2, dictGet, hn, Except.map, List.flatten]

/-- C6 witness: the theorem applied to a concrete two-member roster, the
first member with two links, the second with none. -/
theorem c6_team_links_flatten_witness :
    (mapE memberLinkRows
        [J.obj [("name", J.s "Alice"),
                ("links", J.arr [J.obj [("type", J.s "x"), ("value", J.s "u1")],
                                 J.obj [("type", J.s "y"), ("value", J.s "u2")]])],
         J.obj [("name", J.s "Bob"), ("links", J.arr [])]]).map List.flatten = .ok
      [[("Member Name", J.s "Alice"), ("Link Type", J.s "x"), ("Link Value", J.s "u1")],
       [("Member Name", J.s "Alice"), ("Link Type", J.s "y"), ("Link Value", J.s "u2")]] :=
  c6_team_links_flatten.2
    [("name", J.s "Alice"),
     ("links", J.arr [J.obj [("type", J.s "x"), ("value", J.s "u1")],
                      J.obj [("type", J.s "y"), ("value", J.s "u2")]])]
    [("name", J.s "Bob"), ("links", J.arr [])]
    (J.s "Alice")
    [("type", J.s "x"), ("value", J.s "u1")]
    [("type", J.s "y"), ("value", J.s "u2")]
    rfl rfl rfl

/-- C8: a successful projection has exactly one row per record, and the
row at position `i` is the projection of the record at position `i` — the
pipeline never reorders; moreover `search_funds` renders exactly that row
sequence. -/
theorem c8_rows_follow_response_order :
    (∀ (funds : List J) (rows : List Row), mapE searchRow funds = .ok rows →
        rows.length = funds.length ∧
        ∀ i (hf : i < funds.length) (hr : i < rows.length),
          searchRow (funds.get ⟨i, hf⟩) = .ok (rows.get ⟨i, hr⟩)) ∧
    (∀ (members : List J) (rows : List Row), mapE teamRow members = .ok rows →
        rows.length = members.length ∧
        ∀ i (hm : i < members.length) (hr : i < rows.length),
          teamRow (members.get ⟨i, hm⟩) = .ok (rows.get ⟨i, hr⟩)) ∧
    (∀ (kvs : List (String × J)) (funds : List J) (rows : List Row),
        List.lookup "data" kvs = some (J.arr funds) → funds ≠ [] →
        mapE searchRow funds = .ok rows →
        search_funds_transform (J.obj kvs) = .ok (tabulateGrid rows)) := by
  refine ⟨fun funds rows h => mapE_length_get _ funds rows h,
          fun ms rows h => mapE_length_get _ ms rows h, ?_⟩
  intro kvs funds rows hd hne hm
  cases funds with
  | nil => exact absurd rfl hne
  | cons f fs =>
    simp [search_funds_transform, pyGet, dictGet, hd, J.truthy, J.iter, hm]

/-- C8 witness: the theorem applied to a one-record response. -/
theorem c8_rows_follow_response_order_witness :
    search_funds_transform (J.obj [("data", J.arr [J.obj [("id", J.i 7)]])])
      = .ok (tabulateGrid
          [[("ID", J.i 7), ("Key", J.s "N/A"), ("Name", J.s "N/A"),
            ("Tier", J.s "N/A"), ("Type", J.s "N/A"), ("Jurisdiction", J.s "N/A"),
            ("Portfolio", J.s "N/A"), ("Funding Rounds", J.s "N/A"),
            ("Retail ROI", J.s "N/A"), ("Lead Investments", J.s "N/A")]]) :=
  c8_rows_follow_response_order.2.2 _ _ _ rfl (fun h => List.noConfusion h) rfl

/-- The Boolean prefix test decides list prefixhood. -/
theorem isPrefixB_iff : ∀ (pat l : List Char), isPrefixB pat l = true ↔ pat <+: l := by
  intro pat
  induction pat with
  | nil => intro l; simp [isPrefixB]
  | cons a xs ih =>
    intro l
    cases l with
    | nil => simp [isPrefixB]
    | cons b ys =>
      simp only [isPrefixB, Bool.and_eq_true, beq_iff_eq, List.cons_prefix_cons, ih]

/-- The Boolean substring test decides list infixhood. -/
theorem isInfixB_iff (pat : String) : ∀ l : List Char, isInfixB pat.data l = true ↔ pat.data <:+: l := by
  intro l
  induction l with
  | nil => simp [isInfixB, isPrefixB_iff, List.prefix_nil, List.infix_nil]
  | cons b t ih => simp [isInfixB, isPrefixB_iff, ih, List.infix_cons_iff]

set_option maxRecDepth 100000 in
/-- C3: a report section's title line and table appear exactly when the
section has rows: an empty row set contributes nothing to the composed
output, a non-empty one contributes the blank line, the `<Title>:` line and
its rendered table; concretely, the well-formed `/funds/{id}` body with
`focusArea: []` yields a report that carries the main-metrics table as a
substring but contains `"Focus Areas:"` nowhere. -/
theorem c3_section_title_iff_rows :
    (∀ (title : String) (rows : List Row), rows = [] → sectionBlock title rows = "") ∧
    (∀ (title : String) (rows : List Row), rows ≠ [] →
        sectionBlock title rows = "\n\n" ++ title ++ ":\n" ++ tabulateGrid rows) ∧
    get_fund_basic_transform 1 basicRespEx = .ok basicOutEx ∧
    (tabulateGrid (basicMainRows basicFundEx)).data <:+: basicOutEx.data ∧
    ¬ ("Focus Areas:".data <:+: basicOutEx.data) := by
  refine ⟨?_, ?_, ?_, ?_, ?_⟩
  · intro title rows h
    subst h
    rfl
  · intro title rows h
    cases rows with
    | nil => exact absurd rfl h
    | cons r rs => rfl
  · rfl
  · rw [← isInfixB_iff]
    decide
  · rw [← isInfixB_iff]
    decide

/-- C3 witness: the theorem applied to the empty focus-area section and to
a one-row section. -/
theorem c3_section_title_iff_rows_witness :
    sectionBlock "Focus Areas" [] = "" ∧
    sectionBlock "Links" [[("Type", J.s "web")]]
      = "\n\n" ++ "Links" ++ ":\n" ++ tabulateGrid [[("Type", J.s "web")]] :=
  ⟨c3_section_title_iff_rows.1 "Focus Areas" [] rfl,
   c3_section_title_iff_rows.2.1 "Links" [[("Type", J.s "web")]]
     (fun h => List.noConfusion h)⟩

/-- A comprehension whose body succeeds on every element succeeds. -/
theorem mapE_ok_of_forall {α β : Type} (f : α → Except PyErr β) :
    ∀ xs : List α, (∀ x ∈ xs, ∃ y, f x = .ok y) → ∃ ys, mapE f xs = .ok ys := by
  intro xs
  induction xs with
  | nil => intro _; exact ⟨[], rfl⟩
  | cons x xs ih =>
    intro h
    obtain ⟨y, hy⟩ := h x (List.mem_cons_self x xs)
    obtain ⟨ys, hys⟩ := ih (fun a ha => h a (List.mem_cons_of_mem x ha))
    exact ⟨y :: ys, by simp [mapE, hy, hys]⟩

/-- A value passing `isObjB` is a dict. -/
theorem isObjB_exists {x : J} (h : isObjB x = true) : ∃ lk, x = J.obj lk := by
  cases x <;> simp_all [isObjB]

/-- A computation whose success flag is set is an `ok`. -/
theorem exists_ok {α : Type} {e : Except PyErr α} (h : e.isOk = true) :
    ∃ y, e = .ok y := by
  cases e with
  | ok y => exact ⟨y, rfl⟩
  | error e2 => simp [Except.isOk, Except.toBool] at h

/-- Iterating a well-typed optional record-list field and projecting each
record succeeds. -/
theorem fieldObjList_rows_ok (kvs : List (String × J)) (k : String)
    (rowF : J → Except PyErr Row)
    (hrow : ∀ lk : List (String × J), ∃ r, rowF (J.obj lk) = .ok r)
    (hok : fieldObjList kvs k = true) :
    ∃ xs rs, (dictGet kvs k (J.arr [])).iter = .ok xs ∧ mapE rowF xs = .ok rs := by
  unfold fieldObjList at hok
  cases h : List.lookup k kvs with
  | none => exact ⟨[], [], by simp [dictGet, h, J.iter], rfl⟩
  | some d =>
    rw [h] at hok
    cases d with
    | arr xs =>
      have hall : ∀ x ∈ xs, ∃ y, rowF x = .ok y := by
        intro x hx
        obtain ⟨lk, hlk⟩ := isObjB_exists ((List.all_eq_true.mp hok) x hx)
        subst hlk
        exact hrow lk
      obtain ⟨rs, hrs⟩ := mapE_ok_of_forall rowF xs hall
      exact ⟨xs, rs, by simp [dictGet, h, J.iter], hrs⟩
    | null => simp at hok
    | b v => simp at hok
    | i v => simp at hok
    | s v => simp at hok
    | obj o => simp at hok

/-- A well-typed stage record always yields a row. -/
theorem stageRow_ok {st : J} (h : stageOk st = true) : ∃ r, stageRow st = .ok r := by
  cases st with
  | obj kvs =>
    simp only [stageOk] at h
    refine exists_ok ?_
    cases ht : List.lookup "type" kvs with
    | none => simp [stageRow, dictGet, ht, J.truthy, Except.isOk, Except.toBool]
    | some d =>
      rw [ht] at h
      cases d with
      | arr xs =>
        cases xs with
        | nil => simp [stageRow, dictGet, ht, J.truthy, Except.isOk, Except.toBool]
        | cons x t => simp [stageRow, dictGet, ht, J.truthy, pyIndex0, Except.isOk, Except.toBool]
      | null => simp [stageRow, dictGet, ht, J.truthy, Except.isOk, Except.toBool]
      | b v =>
        cases v with
        | false => simp [stageRow, dictGet, ht, J.truthy, Except.isOk, Except.toBool]
        | true => simp [J.truthy] at h
      | i v =>
        have hv : v = 0 := by simpa [J.truthy] using h
        subst hv
        simp [stageRow, dictGet, ht, J.truthy, Except.isOk, Except.toBool]
      | s v =>
        have hv : v.isEmpty = true := by simpa [J.truthy] using h
        simp [stageRow, dictGet, ht, J.truthy, hv, Except.isOk, Except.toBool]
      | obj o =>
        have hv : o.isEmpty = true := by simpa [J.truthy] using h
        simp [stageRow, dictGet, ht, J.truthy, hv, Except.isOk, Except.toBool]
  | null => simp [stageOk] at h
  | b v => simp [stageOk] at h
  | i v => simp [stageOk] at h
  | s v => simp [stageOk] at h
  | arr xs => simp [stageOk] at h

/-- The investment-stages table of a well-typed fund is built without
error. -/
theorem stagesTable_ok (kvs : List (String × J)) (hok : stagesFieldOk kvs = true) :
    ∃ xs rs, (dictGet kvs "investmentStages" (J.arr [])).iter = .ok xs ∧
      mapE stageRow xs = .ok rs := by
  unfold stagesFieldOk at hok
  cases h : List.lookup "investmentStages" kvs with
  | none => exact ⟨[], [], by simp [dictGet, h, J.iter], rfl⟩
  | some d =>
    rw [h] at hok
    cases d with
    | arr xs =>
      have hall : ∀ x ∈ xs, ∃ y, stageRow x = .ok y :=
        fun x hx => stageRow_ok ((List.all_eq_true.mp hok) x hx)
      obtain ⟨rs, hrs⟩ := mapE_ok_of_forall stageRow xs hall
      exact ⟨xs, rs, by simp [dictGet, h, J.iter], hrs⟩
    | null => simp at hok
    | b v => simp at hok
    | i v => simp at hok
    | s v => simp at hok
    | obj o => simp at hok

/-- A well-typed member record always yields a roster row. -/
theorem teamRow_ok {m : J} (h : memberOk m = true) : ∃ r, teamRow m = .ok r := by
  cases m with
  | obj kvs =>
    have h2 : jobsFieldOk kvs = true ∧ fieldObjList kvs "links" = true := by
      simpa [memberOk] using h
    have hj := h2.1
    simp only [jobsFieldOk] at hj
    refine exists_ok ?_
    cases ht : List.lookup "jobs" kvs with
    | none => simp [teamRow, dictGet, ht, pyJoin, strList, Except.isOk, Except.toBool]
    | some d =>
      rw [ht] at hj
      cases d with
      | arr xs =>
        cases hs : strList xs with
        | none => simp [hs] at hj
        | some ss => simp [teamRow, dictGet, ht, pyJoin, hs, Except.isOk, Except.toBool]
      | null => simp at hj
      | b v => simp at hj
      | i v => simp at hj
      | s v => simp at hj
      | obj o => simp at hj
  | null => simp [memberOk] at h
  | b v => simp [memberOk] at h
  | i v => simp [memberOk] at h
  | s v => simp [memberOk] at h
  | arr xs => simp [memberOk] at h

/-- A well-typed member record's link flattening succeeds. -/
theorem memberLinkRows_ok {m : J} (h : memberOk m = true) :
    ∃ rs, memberLinkRows m = .ok rs := by
  cases m with
  | obj kvs =>
    have h2 : jobsFieldOk kvs = true ∧ fieldObjList kvs "links" = true := by
      simpa [memberOk] using h
    obtain ⟨xs, rs, hxi, hrs⟩ := fieldObjList_rows_ok kvs "links"
      (fun link =>
        match link with
        | .obj lk => .ok
            [("Member Name", dictGet kvs "name" (J.s "N/A")),
             ("Link Type", dictGet lk "type" (J.s "N/A")),
             ("Link Value", dictGet lk "value" (J.s "N/A"))]
        | _ => .error (.attributeError "object has no attribute get"))
      (fun lk => ⟨_, rfl⟩) h2.2
    exact ⟨rs, by simp only [memberLinkRows, hxi, hrs]⟩
  | null => simp [memberOk] at h
  | b v => simp [memberOk] at h
  | i v => simp [memberOk] at h
  | s v => simp [memberOk] at h
  | arr xs => simp [memberOk] at h

/-- The `search_funds` transformation is total on well-typed responses. -/
theorem search_transform_ok {resp : J} (h : dataListOk isObjB resp = true) :
    ∃ out, search_funds_transform resp = .ok out := by
  cases resp with
  | obj kvs =>
    simp only [dataListOk] at h
    refine exists_ok ?_
    cases hd : List.lookup "data" kvs with
    | none => simp [search_funds_transform, pyGet, dictGet, hd, J.truthy, Except.isOk, Except.toBool]
    | some d =>
      rw [hd] at h
      replace h : (!d.truthy || dataArrOk isObjB d) = true := h
      cases htr : d.truthy with
      | false => simp [search_funds_transform, pyGet, dictGet, hd, htr, Except.isOk, Except.toBool]
      | true =>
        rw [htr] at h
        simp only [Bool.not_true, Bool.false_or] at h
        cases d with
        | arr xs =>
          simp only [dataArrOk] at h
          have hall : ∀ x ∈ xs, ∃ y, searchRow x = .ok y := by
            intro x hx
            obtain ⟨lk, hlk⟩ := isObjB_exists ((List.all_eq_true.mp h) x hx)
            subst hlk
            exact ⟨_, rfl⟩
          obtain ⟨rs, hrs⟩ := mapE_ok_of_forall searchRow xs hall
          simp [search_funds_transform, pyGet, dictGet, hd, htr, J.iter, hrs,
                Except.isOk, Except.toBool]
        | null => simp [dataArrOk] at h
        | b v => simp [dataArrOk] at h
        | i v => simp [dataArrOk] at h
        | s v => simp [dataArrOk] at h
        | obj o => simp [dataArrOk] at h
  | null => simp [dataListOk] at h
  | b v => simp [dataListOk] at h
  | i v => simp [dataListOk] at h
  | s v => simp [dataListOk] at h
  | arr xs => simp [dataListOk] at h

/-- The `get_all_funds` transformation is total on well-typed responses. -/
theorem all_funds_transform_ok {resp : J} (h : dataListOk isObjB resp = true) :
    ∃ out, get_all_funds_transform resp = .ok out := by
  cases resp with
  | obj kvs =>
    simp only [dataListOk] at h
    refine exists_ok ?_
    cases hd : List.lookup "data" kvs with
    | none => simp [get_all_funds_transform, pyGet, dictGet, hd, J.truthy, Except.isOk, Except.toBool]
    | some d =>
      rw [hd] at h
      replace h : (!d.truthy || dataArrOk isObjB d) = true := h
      cases htr : d.truthy with
      | false => simp [get_all_funds_transform, pyGet, dictGet, hd, htr, Except.isOk, Except.toBool]
      | true =>
        rw [htr] at h
        simp only [Bool.not_true, Bool.false_or] at h
        cases d with
        | arr xs =>
          simp only [dataArrOk] at h
          have hall : ∀ x ∈ xs, ∃ y, allFundsRow x = .ok y := by
            intro x hx
            obtain ⟨lk, hlk⟩ := isObjB_exists ((List.all_eq_true.mp h) x hx)
            subst hlk
            exact ⟨_, rfl⟩
          obtain ⟨rs, hrs⟩ := mapE_ok_of_forall allFundsRow xs hall
          simp [get_all_funds_transform, pyGet, dictGet, hd, htr, J.iter, hrs,
                Except.isOk, Except.toBool]
        | null => simp [dataArrOk] at h
        | b v => simp [dataArrOk] at h
        | i v => simp [dataArrOk] at h
        | s v => simp [dataArrOk] at h
        | obj o => simp [dataArrOk] at h
  | null => simp [dataListOk] at h
  | b v => simp [dataListOk] at h
  | i v => simp [dataListOk] at h
  | s v => simp [dataListOk] at h
  | arr xs => simp [dataListOk] at h

/-- The `get_fund_basic` transformation is total on well-typed responses. -/
theorem basic_transform_ok (fund_id : Int) {resp : J} (h : basicRespOk resp = true) :
    ∃ out, get_fund_basic_transform fund_id resp = .ok out := by
  cases resp with
  | obj kvs =>
    simp only [basicRespOk] at h
    refine exists_ok ?_
    cases hd : List.lookup "data" kvs with
    | none => simp [get_fund_basic_transform, pyGet, dictGet, hd, J.truthy, Except.isOk, Except.toBool]
    | some d =>
      rw [hd] at h
      replace h : (!d.truthy || dataFirstOk d) = true := h
      cases htr : d.truthy with
      | false => simp [get_fund_basic_transform, pyGet, dictGet, hd, htr, Except.isOk, Except.toBool]
      | true =>
        rw [htr] at h
        simp only [Bool.not_true, Bool.false_or] at h
        cases d with
        | arr xs =>
          cases xs with
          | nil => simp [J.truthy] at htr
          | cons f rest =>
            simp only [dataFirstOk] at h
            cases f with
            | obj fk =>
              have h2 : fieldObjList fk "focusArea" = true ∧
                  fieldObjList fk "topInvestments" = true := by
                simpa [basicFundOk] using h
              obtain ⟨as1, rs1, ha1, hr1⟩ :=
                fieldObjList_rows_ok fk "focusArea" focusAreaRow (fun lk => ⟨_, rfl⟩) h2.1
              obtain ⟨as2, rs2, ha2, hr2⟩ :=
                fieldObjList_rows_ok fk "topInvestments" investmentRow (fun lk => ⟨_, rfl⟩) h2.2
              simp only [dictGet] at ha1 ha2
              simp [get_fund_basic_transform, pyGet, dictGet, hd, J.truthy, pyIndex0,
                    ha1, hr1, ha2, hr2, Except.isOk, Except.toBool]
            | null => simp [basicFundOk] at h
            | b v => simp [basicFundOk] at h
            | i v => simp [basicFundOk] at h
            | s v => simp [basicFundOk] at h
            | arr ys => simp [basicFundOk] at h
        | null => simp [dataFirstOk] at h
        | b v => simp [dataFirstOk] at h
        | i v => simp [dataFirstOk] at h
        | s v => simp [dataFirstOk] at h
        | obj o => simp [dataFirstOk] at h
  | null => simp [basicRespOk] at h
  | b v => simp [basicRespOk] at h
  | i v => simp [basicRespOk] at h
  | s v => simp [basicRespOk] at h
  | arr xs => simp [basicRespOk] at h

/-- The `get_fund_team` transformation is total on well-typed responses. -/
theorem team_transform_ok (fund_id : Int) {resp : J} (h : dataListOk memberOk resp = true) :
    ∃ out, get_fund_team_transform fund_id resp = .ok out := by
  cases resp with
  | obj kvs =>
    simp only [dataListOk] at h
    refine exists_ok ?_
    cases hd : List.lookup "data" kvs with
    | none => simp [get_fund_team_transform, pyGet, dictGet, hd, J.truthy, Except.isOk, Except.toBool]
    | some d =>
      rw [hd] at h
      replace h : (!d.truthy || dataArrOk memberOk d) = true := h
      cases htr : d.truthy with
      | false => simp [get_fund_team_transform, pyGet, dictGet, hd, htr, Except.isOk, Except.toBool]
      | true =>
        rw [htr] at h
        simp only [Bool.not_true, Bool.false_or] at h
        cases d with
        | arr xs =>
          simp only [dataArrOk] at h
          have hallm : ∀ x ∈ xs, memberOk x = true := List.all_eq_true.mp h
          obtain ⟨rs, hrs⟩ := mapE_ok_of_forall teamRow xs
            (fun x hx => teamRow_ok (hallm x hx))
          obtain ⟨ls, hls⟩ := mapE_ok_of_forall memberLinkRows xs
            (fun x hx => memberLinkRows_ok (hallm x hx))
          simp [get_fund_team_transform, pyGet, dictGet, hd, htr, J.iter, hrs, hls,
                Except.isOk, Except.toBool]
        | null => simp [dataArrOk] at h
        | b v => simp [dataArrOk] at h
        | i v => simp [dataArrOk] at h
        | s v => simp [dataArrOk] at h
        | obj o => simp [dataArrOk] at h
  | null => simp [dataListOk] at h
  | b v => simp [dataListOk] at h
  | i v => simp [dataListOk] at h
  | s v => simp [dataListOk] at h
  | arr xs => simp [dataListOk] at h

/-- The `get_fund_detail` transformation is total on well-typed responses. -/
theorem detail_transform_ok (fund_id : Int) {resp : J} (h : detailRespOk resp = true) :
    ∃ out, get_fund_detail_transform fund_id resp = .ok out := by
  cases resp with
  | obj kvs =>
    simp only [detailRespOk] at h
    refine exists_ok ?_
    cases hd : List.lookup "data" kvs with
    | none => simp [get_fund_detail_transform, pyGet, dictGet, hd, J.truthy, Except.isOk, Except.toBool]
    | some d =>
      rw [hd] at h
      replace h : (!d.truthy || detailFundOk d) = true := h
      cases htr : d.truthy with
      | false => simp [get_fund_detail_transform, pyGet, dictGet, hd, htr, Except.isOk, Except.toBool]
      | true =>
        rw [htr] at h
        simp only [Bool.not_true, Bool.false_or] at h
        cases d with
        | obj fk =>
          have h2 : fieldObjList fk "links" = true ∧ fieldObjList fk "focusArea" = true ∧
              fieldObjList fk "topInvestments" = true ∧ fieldObjList fk "fundingLocations" = true ∧
              fieldObjList fk "recentRounds" = true ∧ fieldObjList fk "avgRoundsRaise" = true ∧
              stagesFieldOk fk = true := by
            simpa [detailFundOk, and_assoc] using h
          obtain ⟨hA, hB, hC, hD, hE, hF, hG⟩ := h2
          obtain ⟨x1, r1, hi1, hm1⟩ :=
            fieldObjList_rows_ok fk "links" fundLinkRow (fun lk => ⟨_, rfl⟩) hA
          obtain ⟨x2, r2, hi2, hm2⟩ :=
            fieldObjList_rows_ok fk "focusArea" focusAreaRow (fun lk => ⟨_, rfl⟩) hB
          obtain ⟨x3, r3, hi3, hm3⟩ :=
            fieldObjList_rows_ok fk "topInvestments" investmentRow (fun lk => ⟨_, rfl⟩) hC
          obtain ⟨x4, r4, hi4, hm4⟩ :=
            fieldObjList_rows_ok fk "fundingLocations" locationRow (fun lk => ⟨_, rfl⟩) hD
          obtain ⟨x5, r5, hi5, hm5⟩ :=
            fieldObjList_rows_ok fk "recentRounds" roundRow (fun lk => ⟨_, rfl⟩) hE
          obtain ⟨x6, r6, hi6, hm6⟩ :=
            fieldObjList_rows_ok fk "avgRoundsRaise" avgRaiseRow (fun lk => ⟨_, rfl⟩) hF
          obtain ⟨x7, r7, hi7, hm7⟩ := stagesTable_ok fk hG
          simp only [dictGet] at hi1 hi2 hi3 hi4 hi5 hi6 hi7
          simp [get_fund_detail_transform, pyGet, dictGet, hd, htr,
                hi1, hm1, hi2, hm2, hi3, hm3, hi4, hm4, hi5, hm5, hi6, hm6, hi7, hm7,
                Except.isOk, Except.toBool]
        | null => simp [detailFundOk] at h
        | b v => simp [detailFundOk] at h
        | i v => simp [detailFundOk] at h
        | s v => simp [detailFundOk] at h
        | arr ys => simp [detailFundOk] at h
  | null => simp [detailRespOk] at h
  | b v => simp [detailRespOk] at h
  | i v => simp [detailRespOk] at h
  | s v => simp [detailRespOk] at h
  | arr xs => simp [detailRespOk] at h

/-- C1 counterexample: the transformation stage does raise on some
successfully fetched responses with non-empty data.  A team member whose
`jobs` field is present but null makes `", ".join(None)` raise a
`TypeError`; a stage whose `type` is a truthy non-sequence makes the
`[0]` subscript raise. -/
theorem c1_counterexample_malformed_raises :
    get_fund_team_transform 1 (J.obj [("data", J.arr [J.obj
      [("id", J.i 1), ("name", J.s "Alice"), ("jobs", J.null), ("priority", J.i 1)]])])
      = .error (.typeError "can only join an iterable") ∧
    get_fund_detail_transform 1 (J.obj [("data", J.obj
      [("investmentStages", J.arr [J.obj [("type", J.i 5)]])])])
      = .error (.typeError "object is not subscriptable") :=
  ⟨rfl, rfl⟩

/-- C1 amended: the transformation stage of every operation returns
normally on every well-typed response — fields may be absent (the fallback
appears) and optional record lists may be empty or missing — but a present
field of the wrong type (such as a null `jobs` list for `get_fund_team`,
a null sub-collection, or a truthy non-sequence stage `type` for
`get_fund_detail`) raises a Python error. -/
theorem c1_amended_welltyped_never_raises :
    (∀ resp, dataListOk isObjB resp = true →
        ∃ out, search_funds_transform resp = .ok out) ∧
    (∀ resp, dataListOk isObjB resp = true →
        ∃ out, get_all_funds_transform resp = .ok out) ∧
    (∀ (fund_id : Int) resp, basicRespOk resp = true →
        ∃ out, get_fund_basic_transform fund_id resp = .ok out) ∧
    (∀ (fund_id : Int) resp, detailRespOk resp = true →
        ∃ out, get_fund_detail_transform fund_id resp = .ok out) ∧
    (∀ (fund_id : Int) resp, dataListOk memberOk resp = true →
        ∃ out, get_fund_team_transform fund_id resp = .ok out) :=
  ⟨fun _ h => search_transform_ok h,
   fun _ h => all_funds_transform_ok h,
   fun i _ h => basic_transform_ok i h,
   fun i _ h => detail_transform_ok i h,
   fun i _ h => team_transform_ok i h⟩

/-- C1 witness: the amended theorem applied to concrete well-typed
responses exercising absent keys, null scalar fields, and empty
sub-collections. -/
theorem c1_amended_welltyped_never_raises_witness :
    (∃ out, search_funds_transform
        (J.obj [("data", J.arr [J.obj [("name", J.s "F"), ("tier", J.null)]])]) = .ok out) ∧
    (∃ out, get_all_funds_transform (J.obj [("data", J.arr [J.obj []])]) = .ok out) ∧
    (∃ out, get_fund_basic_transform 2
        (J.obj [("data", J.arr [J.obj [("focusArea", J.arr [])]])]) = .ok out) ∧
    (∃ out, get_fund_detail_transform 3
        (J.obj [("data", J.obj [("investmentStages", J.arr [J.obj [("type", J.arr [])]])])]) = .ok out) ∧
    (∃ out, get_fund_team_transform 4
        (J.obj [("data", J.arr [J.obj [("jobs", J.arr [J.s "CEO"]),
                                       ("links", J.arr [J.obj []])]])]) = .ok out) :=
  ⟨c1_amended_welltyped_never_raises.1 _ rfl,
   c1_amended_welltyped_never_raises.2.1 _ rfl,
   c1_amended_welltyped_never_raises.2.2.1 2 _ rfl,
   c1_amended_welltyped_never_raises.2.2.2.1 3 _ rfl,
   c1_amended_welltyped_never_raises.2.2.2.2 4 _ rfl⟩
